import Mathlib

/-
Shallow embedding of the V-Engine renderer core:
  - src/engine/src/renderers/vulkan_renderer.cpp
  - src/engine/src/asset_database.cpp

Machine integers (u32) are modelled as Nat with an explicit `% 2^32`
where overflow is possible.  `core_assert(cond, msg)` (v_assert in
include/core/log.hpp) terminates the process when the condition is
false, both in debug and release builds; a function that can hit such
an assertion is embedded as an `Option`-valued function, `none`
standing for abnormal process termination.  The same convention covers
`_vk_expect`, which asserts that a vk::Result equals eSuccess, and
`std::optional::value()` on an empty optional inside a `noexcept`
function (std::terminate).
-/

namespace VEngine

/-- The number of values of a u32 (2^32). -/
def u32Mod : Nat := 4294967296

/-- std::numeric_limits<u32>::max(). -/
def u32Max : Nat := 4294967295

/-- vk::Extent2D: a width/height pair of u32. -/
structure Extent2D where
  width : Nat
  height : Nat
deriving DecidableEq, Repr

/-- The fields of vk::SurfaceCapabilitiesKHR read by the renderer. -/
structure SurfaceCapabilities where
  currentExtent : Extent2D
  minImageExtent : Extent2D
  maxImageExtent : Extent2D
  minImageCount : Nat
  maxImageCount : Nat
deriving DecidableEq, Repr

/-- std::clamp (vulkan_renderer.cpp uses it on u32 values):
`std::clamp(v, lo, hi)` is `lo` when `v < lo`, `hi` when `hi < v`, else `v`. -/
def std_clamp (v lo hi : Nat) : Nat :=
  if v < lo then lo else if hi < v then hi else v

/-- `_choose_swap_extent` (vulkan_renderer.cpp:372-407): if the surface
capabilities report a defined current extent (width field different from
the u32 maximum), return it verbatim; otherwise clamp the GLFW
framebuffer size component-wise into [minImageExtent, maxImageExtent].
`fbWidth`/`fbHeight` are the values returned by glfwGetFramebufferSize,
cast to u32. -/
def choose_swap_extent (capabilities : SurfaceCapabilities)
    (fbWidth fbHeight : Nat) : Extent2D :=
  if capabilities.currentExtent.width ≠ u32Max then
    capabilities.currentExtent
  else
    { width := std_clamp fbWidth capabilities.minImageExtent.width
        capabilities.maxImageExtent.width,
      height := std_clamp fbHeight capabilities.minImageExtent.height
        capabilities.maxImageExtent.height }

/-- The image-count computation of `_create_swap_chain`
(vulkan_renderer.cpp:428-434):
`image_count = minImageCount + 1` (u32 arithmetic), then if
`maxImageCount > 0 && image_count > maxImageCount` the count is lowered
to `maxImageCount`. -/
def swap_chain_image_count (capabilities : SurfaceCapabilities) : Nat :=
  let image_count := (capabilities.minImageCount + 1) % u32Mod
  if capabilities.maxImageCount > 0 ∧ image_count > capabilities.maxImageCount
  then capabilities.maxImageCount
  else image_count

/-- A capability record used when only the image counts matter. -/
def capsWithCounts (minC maxC : Nat) : SurfaceCapabilities :=
  { currentExtent := ⟨0, 0⟩, minImageExtent := ⟨0, 0⟩,
    maxImageExtent := ⟨0, 0⟩, minImageCount := minC, maxImageCount := maxC }

/-- `_find_memory_type` (vulkan_renderer.cpp:1636-1681).  The device's
memory types are the list of their propertyFlags bitmasks, in index
order (`memoryTypes[0..memoryTypeCount)`).  The loop returns the first
index `i` with bit `i` of `mem_type_filter` set and whose propertyFlags
contain all bits of `properties`; if the loop ends, `core_assert(false)`
terminates the process (`none`). -/
def find_memory_type_aux : List Nat → Nat → Nat → Nat → Option Nat
  | [], _, _, _ => none
  | flags :: rest, mem_type_filter, properties, i =>
    if (mem_type_filter &&& (1 <<< i)) ≠ 0 ∧ (flags &&& properties) = properties
    then some i
    else find_memory_type_aux rest mem_type_filter properties (i + 1)

/-- `_find_memory_type`, starting the scan at index 0. -/
def find_memory_type (memoryTypes : List Nat)
    (mem_type_filter properties : Nat) : Option Nat :=
  find_memory_type_aux memoryTypes mem_type_filter properties 0

/-- Memory type `i` is compatible with the filter and required
properties: bit `i` of the filter is set and the type's propertyFlags
are a superset of `properties`. -/
def mem_type_compatible (memoryTypes : List Nat)
    (mem_type_filter properties i : Nat) : Prop :=
  ∃ flags, memoryTypes[i]? = some flags ∧
    (mem_type_filter &&& (1 <<< i)) ≠ 0 ∧ (flags &&& properties) = properties

/-- vk::QueueFamilyProperties as consulted by `_find_queue_families`:
only the graphics bit of queueFlags is read. -/
structure QueueFamilyProps where
  supportsGraphics : Bool
deriving DecidableEq, Repr

/-- vk::SurfaceFormatKHR (format and colorSpace enumerators as Nat). -/
structure SurfaceFormat where
  format : Nat
  colorSpace : Nat
deriving DecidableEq, Repr

/-- A physical device together with the result of every query the
device-selection code performs on it: getQueueFamilyProperties,
getSurfaceSupportKHR (per family index, for the bound surface),
enumerateDeviceExtensionProperties, getSurfaceFormatsKHR,
getSurfacePresentModesKHR, getFeatures().samplerAnisotropy, and
getProperties() (deviceType and limits.maxImageDimension2D). -/
structure PhysicalDevice where
  queueFamilies : List QueueFamilyProps
  surfaceSupport : List Bool
  availableExtensions : List String
  surfaceFormats : List SurfaceFormat
  presentModes : List Nat
  samplerAnisotropy : Bool
  isDiscreteGpu : Bool
  maxImageDimension2D : Nat
deriving DecidableEq, Repr

/-- struct QueueFamilyIndices (vulkan_renderer.cpp:225-239). -/
structure QueueFamilyIndices where
  graphics_family : Option Nat
  present_family : Option Nat
deriving DecidableEq, Repr

/-- QueueFamilyIndices::is_complete. -/
def QueueFamilyIndices.is_complete (q : QueueFamilyIndices) : Bool :=
  q.graphics_family.isSome && q.present_family.isSome

/-- The loop of `_find_queue_families` (vulkan_renderer.cpp:241-273).
Per iteration: break when complete; record family `i` as the graphics
family when its flags include graphics; query surface support for
`graphics_family.value()` (std::optional::value() on an empty optional
in this noexcept function terminates the process: `none`); record
family `i` as the present family when that query returned true. -/
def find_queue_families_aux (d : PhysicalDevice) :
    List QueueFamilyProps → Nat → QueueFamilyIndices →
    Option QueueFamilyIndices
  | [], _, indices => some indices
  | queue_family :: rest, i, indices =>
    if indices.is_complete then some indices
    else
      let indices1 := if queue_family.supportsGraphics
        then { indices with graphics_family := some i } else indices
      match indices1.graphics_family with
      | none => none
      | some g =>
        let supported := d.surfaceSupport.getD g false
        let indices2 := if supported
          then { indices1 with present_family := some i } else indices1
        find_queue_families_aux d rest (i + 1) indices2

/-- `_find_queue_families`, scanning from family index 0 with both
indices empty. -/
def find_queue_families (d : PhysicalDevice) : Option QueueFamilyIndices :=
  find_queue_families_aux d d.queueFamilies 0 ⟨none, none⟩

/-- s_physical_device_extensions (vulkan_renderer.cpp:19-21). -/
def s_physical_device_extensions : List String := ["VK_KHR_swapchain"]

/-- `_check_device_extension_support` (vulkan_renderer.cpp:571-601):
the set of required extensions minus the available ones is empty, i.e.
every required extension is available. -/
def check_device_extension_support (d : PhysicalDevice) : Bool :=
  s_physical_device_extensions.all (fun e => d.availableExtensions.contains e)

/-- `_is_device_suitable` (vulkan_renderer.cpp:603-645): queue-family
indices complete, required extensions supported, swapchain adequate
(at least one surface format and one present mode, only queried when
the extensions are supported), and anisotropic sampling available.
Propagates the fatal outcome of `_find_queue_families`. -/
def is_device_suitable (d : PhysicalDevice) : Option Bool := do
  let indices ← find_queue_families d
  let extensions_supported := check_device_extension_support d
  let swap_chain_adequate :=
    if extensions_supported
    then !d.surfaceFormats.isEmpty && !d.presentModes.isEmpty
    else false
  return indices.is_complete && extensions_supported &&
    swap_chain_adequate && d.samplerAnisotropy

/-- `_rate_device_suitability` (vulkan_renderer.cpp:647-670): 1000
points for a discrete GPU plus the raw maxImageDimension2D, in u32
arithmetic. -/
def rate_device_suitability (d : PhysicalDevice) : Nat :=
  ((if d.isDiscreteGpu then 1000 else 0) + d.maxImageDimension2D) % u32Mod

/-- The first loop of `_create_physical_device`
(vulkan_renderer.cpp:682-689): test devices in enumeration order and
stop at the first suitable one.  `some none` means the loop completed
with no suitable device found; `none` means a suitability check was
fatal. -/
def first_suitable_device : List PhysicalDevice → Option (Option PhysicalDevice)
  | [] => some none
  | device :: rest =>
    match is_device_suitable device with
    | none => none
    | some true => some (some device)
    | some false => first_suitable_device rest

/-- The `std::multimap<u32, vk::PhysicalDevice> candidates` of
`_create_physical_device` (vulkan_renderer.cpp:693-702), reduced to the
element `candidates.rbegin()` points at after all devices are inserted:
the entry with the greatest score, and among equal scores the one
inserted last (multimap::insert places equal keys after the existing
ones, so rbegin sees the last-inserted of the greatest key). -/
def rated_candidates_best : List PhysicalDevice → Option (Nat × PhysicalDevice)
  | [] => none
  | device :: rest =>
    match rated_candidates_best rest with
    | none => some (rate_device_suitability device, device)
    | some (bs, bd) =>
      if bs ≥ rate_device_suitability device then some (bs, bd)
      else some (rate_device_suitability device, device)

/-- `_create_physical_device` (vulkan_renderer.cpp:672-704): assert a
suitable device exists (first loop), then rate ALL enumerated devices
into a multimap and select the entry rbegin points at, asserting its
score is positive.  Fatal assertions are `none`. -/
def create_physical_device (physical_devices : List PhysicalDevice) :
    Option PhysicalDevice :=
  match first_suitable_device physical_devices with
  | none => none
  | some none => none
  | some (some _) =>
    match rated_candidates_best physical_devices with
    | none => none
    | some (s, best) => if s > 0 then some best else none

/-- A suitable integrated device: one graphics queue family that also
presents, the swapchain extension, one format, one present mode,
anisotropy, maxImageDimension2D = 8192. -/
def devSuitable : PhysicalDevice :=
  { queueFamilies := [⟨true⟩], surfaceSupport := [true],
    availableExtensions := ["VK_KHR_swapchain"],
    surfaceFormats := [⟨50, 0⟩], presentModes := [2],
    samplerAnisotropy := true, isDiscreteGpu := false,
    maxImageDimension2D := 8192 }

/-- Like `devSuitable` but without anisotropic sampling, hence
unsuitable; same score 8192. -/
def devUnsuitable : PhysicalDevice :=
  { devSuitable with samplerAnisotropy := false }

/-- A suitable discrete device with maxImageDimension2D = 16384
(score 1000 + 16384). -/
def devDiscrete : PhysicalDevice :=
  { devSuitable with isDiscreteGpu := true, maxImageDimension2D := 16384 }

/-- The vk::Result values the frame scheduler distinguishes. -/
inductive VkResult
  | success
  | errorOutOfDate
  | suboptimal
  | otherError
deriving DecidableEq, Repr

/-- s_max_frames_in_flight (vulkan_renderer.hpp:242). -/
def s_max_frames_in_flight : Nat := 2

/-- The renderer state `_draw_frame` reads and writes:
`_current_frame` and `_framebuffer_resized`. -/
structure LoopState where
  current_frame : Nat
  framebuffer_resized : Bool
deriving DecidableEq, Repr

/-- The driver-reported outcomes of one `_draw_frame` iteration: the
results of vkAcquireNextImageKHR and vkQueuePresentKHR. -/
structure DrawIO where
  acquireResult : VkResult
  presentResult : VkResult
deriving DecidableEq, Repr

/-- Host-visible events of one `_draw_frame` iteration, tagged with the
frame slot they act on where applicable. -/
inductive Ev
  | waitFence (slot : Nat)
  | acquireImage (slot : Nat)
  | resetFence (slot : Nat)
  | resetCmdBuffer (slot : Nat)
  | recordCmdBuffer (slot : Nat)
  | updateUniform (slot : Nat)
  | submit (slot : Nat)
  | presentImage
  | recreateSwapchain
  | fatalAbort
deriving DecidableEq, Repr

/-- `_draw_frame` (vulkan_renderer.cpp:1512-1630), as a transformer of
the loop state that also emits the iteration's event trace.  In order:
wait on the slot's fence, acquire an image (the result goes through
`_vk_expect`, so ANY non-success acquire result is a fatal assertion),
reset the slot's fence, reset and re-record the slot's command buffer,
write the slot's uniform buffer, submit, present; when the present call
reports out-of-date or suboptimal or `_framebuffer_resized` is set, the
flag is cleared, the swapchain is recreated and the function returns
WITHOUT advancing `_current_frame`; otherwise `_current_frame` advances
modulo s_max_frames_in_flight. -/
def draw_frame (s : LoopState) (io : DrawIO) : Option LoopState × List Ev :=
  let c := s.current_frame
  if io.acquireResult ≠ VkResult.success then
    (none, [Ev.waitFence c, Ev.acquireImage c, Ev.fatalAbort])
  else
    let body := [Ev.waitFence c, Ev.acquireImage c, Ev.resetFence c,
      Ev.resetCmdBuffer c, Ev.recordCmdBuffer c, Ev.updateUniform c,
      Ev.submit c, Ev.presentImage]
    if io.presentResult = VkResult.errorOutOfDate ∨
       io.presentResult = VkResult.suboptimal ∨
       s.framebuffer_resized then
      (some { current_frame := c, framebuffer_resized := false },
       body ++ [Ev.recreateSwapchain])
    else
      (some { current_frame := (c + 1) % s_max_frames_in_flight,
              framebuffer_resized := s.framebuffer_resized },
       body)

/-- The render loop `render()` (vulkan_renderer.cpp:86-94): iterate
`_draw_frame` over the per-iteration driver outcomes until the window
requests close (the length of `ios`); a fatal iteration ends the
process with the events emitted so far. -/
def run_render_loop : LoopState → List DrawIO → Option LoopState × List Ev
  | s, [] => (some s, [])
  | s, io :: rest =>
    match draw_frame s io with
    | (none, tr) => (none, tr)
    | (some s2, tr) =>
      let r := run_render_loop s2 rest
      (r.1, tr ++ r.2)

/-- Fence discipline on an event trace: every reset, re-record or
uniform write for a frame slot happens strictly after a completed host
wait on that same slot's fence. -/
def fence_wait_precedes (tr : List Ev) : Prop :=
  ∀ (j : Nat) (slot : Nat),
    (tr[j]? = some (Ev.resetCmdBuffer slot) ∨
             tr[j]? = some (Ev.recordCmdBuffer slot) ∨
             tr[j]? = some (Ev.updateUniform slot)) →
    ∃ i, i < j ∧ tr[i]? = some (Ev.waitFence slot)

/-- Handle-touching events of `_recreate_swap_chain`.  Constructors for
render-pass, pipeline, pipeline-layout and descriptor-set-layout
destruction/creation exist so that their absence from the recreation
trace can be stated. -/
inductive REv
  | pollFramebufferSize
  | waitEventsEv
  | deviceWaitIdle
  | destroyFramebuffers
  | destroyImageViews
  | destroySwapchain
  | createSwapchainEv
  | createImageViewsEv
  | createFramebuffersEv
  | destroyRenderPass
  | createRenderPassEv
  | destroyPipeline
  | createPipelineEv
  | destroyPipelineLayout
  | createPipelineLayoutEv
  | destroyDescriptorSetLayout
  | createDescriptorSetLayoutEv
deriving DecidableEq, Repr

/-- The minimization wait of `_recreate_swap_chain`
(vulkan_renderer.cpp:495-504): while the polled framebuffer size has a
zero component, poll again and wait for window events.  `cur` is the
size returned by the latest glfwGetFramebufferSize call, `rest` the
sizes the following calls would return.  `none` models the loop never
observing a nonzero size within `rest` (the call blocks forever). -/
def minimized_wait_loop : (Nat × Nat) → List (Nat × Nat) → Option (List REv)
  | cur, [] => if cur.1 = 0 ∨ cur.2 = 0 then none else some []
  | cur, sz :: rest =>
    if cur.1 = 0 ∨ cur.2 = 0 then
      (minimized_wait_loop sz rest).map
        (fun evs => REv.pollFramebufferSize :: REv.waitEventsEv :: evs)
    else some []

/-- `_cleanup_swap_chain` (vulkan_renderer.cpp:515-526): destroy the
framebuffers, then the image views, then the swapchain. -/
def cleanup_swap_chain_trace : List REv :=
  [REv.destroyFramebuffers, REv.destroyImageViews, REv.destroySwapchain]

/-- `_recreate_swap_chain` (vulkan_renderer.cpp:493-513): poll the
framebuffer size and wait until it is nonzero, wait for the device to
go idle, run `_cleanup_swap_chain`, then `_create_swap_chain`,
`_create_image_views`, `_create_framebuffers`.  `polls` is the sequence
of sizes successive glfwGetFramebufferSize calls return. -/
def recreate_swap_chain_trace (polls : List (Nat × Nat)) :
    Option (List REv) :=
  match polls with
  | [] => none
  | sz :: rest =>
    (minimized_wait_loop sz rest).map (fun evs =>
      (REv.pollFramebufferSize :: evs) ++ [REv.deviceWaitIdle] ++
      cleanup_swap_chain_trace ++
      [REv.createSwapchainEv, REv.createImageViewsEv,
       REv.createFramebuffersEv])

/-- AssetDatabase::resolve (asset_database.cpp:11-20): join the assets
root with the relative path (std::filesystem operator/) and
`core_assert` that the file exists — fatal (`none`) when it does not.
`fs_exists` is std::filesystem::exists. -/
def AssetDatabase.resolve (fs_exists : String → Bool)
    (assets_root relative_path : String) : Option String :=
  let resolved := assets_root ++ "/" ++ relative_path
  if fs_exists resolved then some resolved else none

/-- AssetDatabase::exists (asset_database.cpp:53-56): resolve the path
(fatally asserting existence) and return std::filesystem::exists of the
resolved path. -/
def AssetDatabase.exists (fs_exists : String → Bool)
    (assets_root relative_path : String) : Option Bool :=
  (AssetDatabase.resolve fs_exists assets_root relative_path).map fs_exists

/-- std::clamp stays inside the range when the range is well-formed. -/
lemma std_clamp_mem (v lo hi : Nat) (h : lo ≤ hi) :
    lo ≤ std_clamp v lo hi ∧ std_clamp v lo hi ≤ hi := by
  unfold std_clamp
  split <;> [omega; skip]
  split <;> omega

/-- Soundness of the scanning loop of `_find_memory_type`: a returned
index is at least the start index, in range, compatible, and no index
between the start and it is compatible. -/
lemma find_memory_type_aux_sound :
    ∀ (l : List Nat) (f p s i : Nat),
    find_memory_type_aux l f p s = some i →
    s ≤ i ∧ i - s < l.length ∧
    (∃ flags, l[i - s]? = some flags ∧
      (f &&& (1 <<< i)) ≠ 0 ∧ (flags &&& p) = p) ∧
    (∀ j, s ≤ j → j < i → ∀ flags2, l[j - s]? = some flags2 →
      ¬ ((f &&& (1 <<< j)) ≠ 0 ∧ (flags2 &&& p) = p)) := by
  intro l
  induction l with
  | nil => intro f p s i h; simp [find_memory_type_aux] at h
  | cons flags rest ih =>
    intro f p s i h
    unfold find_memory_type_aux at h
    split at h
    · rename_i hc
      cases h
      refine ⟨Nat.le_refl _, by simp, ⟨flags, by simp, hc.1, hc.2⟩, ?_⟩
      intro j hj1 hj2
      omega
    · rename_i hc
      obtain ⟨h1, h2, ⟨fl, hfl, hfl2, hfl3⟩, h4⟩ := ih f p (s + 1) i h
      refine ⟨by omega, by simp; omega, ?_, ?_⟩
      · refine ⟨fl, ?_, hfl2, hfl3⟩
        have : i - s = (i - (s + 1)) + 1 := by omega
        rw [this]
        simpa using hfl
      · intro j hj1 hj2 flags2 hg
        rcases Nat.eq_or_lt_of_le hj1 with heq | hlt
        · subst heq
          simp at hg
          subst hg
          exact hc
        · have : j - s = (j - (s + 1)) + 1 := by omega
          rw [this] at hg
          simp at hg
          exact h4 j (by omega) hj2 flags2 hg

/-- Completeness of the scanning loop of `_find_memory_type`: when it
fails (fatal assertion), no scanned index was compatible. -/
lemma find_memory_type_aux_none :
    ∀ (l : List Nat) (f p s : Nat),
    find_memory_type_aux l f p s = none →
    ∀ j flags2, l[j]? = some flags2 →
      ¬ ((f &&& (1 <<< (s + j))) ≠ 0 ∧ (flags2 &&& p) = p) := by
  intro l
  induction l with
  | nil => intro f p s _ j flags2 hg; simp at hg
  | cons flags rest ih =>
    intro f p s h j flags2 hg
    unfold find_memory_type_aux at h
    split at h
    · exact absurd h (by simp)
    · rename_i hc
      cases j with
      | zero =>
        simp at hg
        subst hg
        simpa using hc
      | succ k =>
        simp at hg
        have := ih f p (s + 1) h k flags2 hg
        have harith : s + 1 + k = s + (k + 1) := by omega
        rw [harith] at this
        exact this

/-- C8: `_find_memory_type` is deterministic (it is a pure function of
the device-reported memory types, the bitmask and the required
properties) and returns the lowest compatible index; when no index is
compatible it hits `core_assert(false)`, a fatal condition (`none`). -/
theorem find_memory_type_lowest (memoryTypes : List Nat)
    (mem_type_filter properties : Nat) :
    (∀ i, find_memory_type memoryTypes mem_type_filter properties = some i →
      mem_type_compatible memoryTypes mem_type_filter properties i ∧
      ∀ j, j < i → ¬ mem_type_compatible memoryTypes mem_type_filter properties j) ∧
    (find_memory_type memoryTypes mem_type_filter properties = none →
      ∀ j, ¬ mem_type_compatible memoryTypes mem_type_filter properties j) := by
  constructor
  · intro i h
    obtain ⟨_, h2, ⟨fl, hfl, hfl2, hfl3⟩, h4⟩ :=
      find_memory_type_aux_sound memoryTypes mem_type_filter properties 0 i h
    constructor
    · exact ⟨fl, by simpa using hfl, hfl2, hfl3⟩
    · intro j hj ⟨flags2, hg, hcomp⟩
      exact h4 j (Nat.zero_le _) hj flags2 (by simpa using hg) hcomp
  · intro h j ⟨flags2, hg, hcomp⟩
    have := find_memory_type_aux_none memoryTypes mem_type_filter properties 0 h
      j flags2 hg
    rw [Nat.zero_add] at this
    exact this hcomp

/-- Witness for C8: on memory types with propertyFlags [0b0, 0b11],
filter 0b10 and required properties 0b1, the selected index is 1 and
index 0 is incompatible. -/
theorem find_memory_type_lowest_witness :
    mem_type_compatible [0, 3] 2 1 1 ∧
    ∀ j, j < 1 → ¬ mem_type_compatible [0, 3] 2 1 j :=
  (find_memory_type_lowest [0, 3] 2 1).1 1 (by decide)

/-- C7: `_choose_swap_extent` returns the capability's currentExtent
verbatim whenever it is defined (width different from the u32 maximum),
regardless of the window framebuffer size; otherwise it returns the
framebuffer size clamped component-wise into
[minImageExtent, maxImageExtent] (in-range when each range is
well-formed). -/
theorem choose_swap_extent_spec (caps : SurfaceCapabilities)
    (fbWidth fbHeight : Nat) :
    (caps.currentExtent.width ≠ u32Max →
      choose_swap_extent caps fbWidth fbHeight = caps.currentExtent) ∧
    (caps.currentExtent.width = u32Max →
      choose_swap_extent caps fbWidth fbHeight =
        ⟨std_clamp fbWidth caps.minImageExtent.width caps.maxImageExtent.width,
         std_clamp fbHeight caps.minImageExtent.height caps.maxImageExtent.height⟩ ∧
      (caps.minImageExtent.width ≤ caps.maxImageExtent.width →
        caps.minImageExtent.width ≤ (choose_swap_extent caps fbWidth fbHeight).width ∧
        (choose_swap_extent caps fbWidth fbHeight).width ≤ caps.maxImageExtent.width) ∧
      (caps.minImageExtent.height ≤ caps.maxImageExtent.height →
        caps.minImageExtent.height ≤ (choose_swap_extent caps fbWidth fbHeight).height ∧
        (choose_swap_extent caps fbWidth fbHeight).height ≤ caps.maxImageExtent.height)) := by
  constructor
  · intro h
    simp [choose_swap_extent, h]
  · intro h
    have hdef : choose_swap_extent caps fbWidth fbHeight =
        ⟨std_clamp fbWidth caps.minImageExtent.width caps.maxImageExtent.width,
         std_clamp fbHeight caps.minImageExtent.height caps.maxImageExtent.height⟩ := by
      simp [choose_swap_extent, h]
    refine ⟨hdef, ?_, ?_⟩
    · intro hr
      rw [hdef]
      exact std_clamp_mem fbWidth _ _ hr
    · intro hr
      rw [hdef]
      exact std_clamp_mem fbHeight _ _ hr

/-- Witness for C7: a defined current extent (1920x1080) is returned
verbatim for a 800x600 window, and with an undefined current extent a
800x600 window inside range [1,1]-[4096,4096] is returned clamped
(unchanged). -/
theorem choose_swap_extent_spec_witness :
    choose_swap_extent
      ⟨⟨1920, 1080⟩, ⟨1, 1⟩, ⟨4096, 4096⟩, 2, 0⟩ 800 600 = ⟨1920, 1080⟩ ∧
    (choose_swap_extent
      ⟨⟨u32Max, 1080⟩, ⟨1, 1⟩, ⟨4096, 4096⟩, 2, 0⟩ 800 600 =
        ⟨std_clamp 800 1 4096, std_clamp 600 1 4096⟩ ∧
     1 ≤ (choose_swap_extent
      ⟨⟨u32Max, 1080⟩, ⟨1, 1⟩, ⟨4096, 4096⟩, 2, 0⟩ 800 600).width) :=
  ⟨(choose_swap_extent_spec ⟨⟨1920, 1080⟩, ⟨1, 1⟩, ⟨4096, 4096⟩, 2, 0⟩ 800 600).1
      (by decide),
   ((choose_swap_extent_spec ⟨⟨u32Max, 1080⟩, ⟨1, 1⟩, ⟨4096, 4096⟩, 2, 0⟩ 800 600).2
      rfl).1,
   (((choose_swap_extent_spec ⟨⟨u32Max, 1080⟩, ⟨1, 1⟩, ⟨4096, 4096⟩, 2, 0⟩ 800 600).2
      rfl).2.1 (by decide)).1⟩

/-- C6 counterexample: for capability {minImageCount=2, maxImageCount=2}
the chosen image count is 2, which is NOT >= minImageCount + 1 = 3 as
the claim states for every valid (min, max) pair with max > 0. -/
theorem swap_chain_image_count_not_min_succ_le :
    swap_chain_image_count (capsWithCounts 2 2) = 2 ∧
    ¬ ((capsWithCounts 2 2).minImageCount + 1 ≤
        swap_chain_image_count (capsWithCounts 2 2)) := by decide

/-- C6 (amended): the requested image count is minImageCount + 1 lowered
to maxImageCount when maxImageCount is nonzero and exceeded; hence it is
at most maxImageCount when maxImageCount > 0, it is at least
minImageCount + 1 whenever maxImageCount = 0 or minImageCount + 1 ≤
maxImageCount, and for {minImageCount=2, maxImageCount=0} it is 3. -/
theorem swap_chain_image_count_spec (caps : SurfaceCapabilities)
    (h : caps.minImageCount + 1 < u32Mod) :
    swap_chain_image_count caps =
      (if caps.maxImageCount > 0 ∧ caps.minImageCount + 1 > caps.maxImageCount
       then caps.maxImageCount else caps.minImageCount + 1) ∧
    (caps.maxImageCount > 0 →
      swap_chain_image_count caps ≤ caps.maxImageCount) ∧
    ((caps.maxImageCount = 0 ∨ caps.minImageCount + 1 ≤ caps.maxImageCount) →
      caps.minImageCount + 1 ≤ swap_chain_image_count caps) ∧
    swap_chain_image_count (capsWithCounts 2 0) = 3 := by
  have hmod : (caps.minImageCount + 1) % u32Mod = caps.minImageCount + 1 :=
    Nat.mod_eq_of_lt h
  have key : swap_chain_image_count caps =
      if caps.maxImageCount > 0 ∧ caps.minImageCount + 1 > caps.maxImageCount
      then caps.maxImageCount else caps.minImageCount + 1 := by
    simp only [swap_chain_image_count, hmod]
  refine ⟨key, ?_, ?_, by decide⟩
  · intro hpos
    rw [key]
    split <;> omega
  · intro hcase
    rw [key]
    split <;> omega

/-- Witness for C6: for {minImageCount=2, maxImageCount=0} (no upper
bound) the chosen image count is 3, matching the spec scenario. -/
theorem swap_chain_image_count_spec_witness :
    swap_chain_image_count (capsWithCounts 2 0) = 3 :=
  (swap_chain_image_count_spec (capsWithCounts 2 0) (by decide)).2.2.2
/-- The multimap is empty only when no device was enumerated. -/
lemma rated_candidates_best_eq_none :
    ∀ l : List PhysicalDevice, rated_candidates_best l = none → l = [] := by
  intro l h
  cases l with
  | nil => rfl
  | cons x rest =>
    cases hr : rated_candidates_best rest with
    | none => simp [rated_candidates_best, hr] at h
    | some p =>
      obtain ⟨bs, bd⟩ := p
      simp only [rated_candidates_best, hr] at h
      split at h <;> simp at h

/-- What `candidates.rbegin()` points at: the score is the device's
rating, every enumerated device rates at most that score, and the
chosen device is the LAST device attaining it. -/
lemma rated_candidates_best_spec :
    ∀ (l : List PhysicalDevice) (s : Nat) (d : PhysicalDevice),
    rated_candidates_best l = some (s, d) →
    s = rate_device_suitability d ∧
    (∀ e ∈ l, rate_device_suitability e ≤ s) ∧
    ∃ l₁ l₂, l = l₁ ++ d :: l₂ ∧
      ∀ e ∈ l₂, rate_device_suitability e < s := by
  intro l
  induction l with
  | nil => intro s d h; simp [rated_candidates_best] at h
  | cons x rest ih =>
    intro s d h
    cases hr : rated_candidates_best rest with
    | none =>
      simp only [rated_candidates_best, hr] at h
      have hrest : rest = [] := rated_candidates_best_eq_none rest hr
      subst hrest
      simp at h
      obtain ⟨rfl, rfl⟩ := h
      exact ⟨rfl, by simp, [], [], by simp, by simp⟩
    | some p =>
      obtain ⟨bs, bd⟩ := p
      simp only [rated_candidates_best, hr] at h
      obtain ⟨hbs, hall, l₁, l₂, hsplit, hlt⟩ := ih bs bd hr
      split at h
      · rename_i hc
        simp at h
        obtain ⟨rfl, rfl⟩ := h
        refine ⟨hbs, ?_, x :: l₁, l₂, by simp [hsplit], hlt⟩
        intro e he
        rcases List.mem_cons.mp he with rfl | he2
        · exact hc
        · exact hall e he2
      · rename_i hc
        simp at h
        obtain ⟨rfl, rfl⟩ := h
        refine ⟨rfl, ?_, [], rest, by simp, ?_⟩
        · intro e he
          rcases List.mem_cons.mp he with rfl | he2
          · exact Nat.le_refl _
          · have := hall e he2; omega
        · intro e he
          have := hall e he
          omega

/-- The first loop of `_create_physical_device` stops at a device that
is in the enumeration and suitable. -/
lemma first_suitable_device_spec :
    ∀ (l : List PhysicalDevice) (d : PhysicalDevice),
    first_suitable_device l = some (some d) →
    d ∈ l ∧ is_device_suitable d = some true := by
  intro l
  induction l with
  | nil => intro d h; simp [first_suitable_device] at h
  | cons x rest ih =>
    intro d h
    cases hs : is_device_suitable x with
    | none => simp [first_suitable_device, hs] at h
    | some b =>
      simp only [first_suitable_device, hs] at h
      cases b with
      | true =>
        simp at h
        subst h
        exact ⟨List.mem_cons_self x rest, hs⟩
      | false =>
        simp at h
        obtain ⟨hmem, hsuit⟩ := ih d h
        exact ⟨List.mem_cons_of_mem x hmem, hsuit⟩

/-- When no enumerated device is suitable (or a suitability check is
itself fatal), `_create_physical_device` is fatal. -/
lemma create_physical_device_none_of_no_suitable
    (l : List PhysicalDevice)
    (h : ∀ e ∈ l, is_device_suitable e ≠ some true) :
    create_physical_device l = none := by
  rw [create_physical_device]
  cases hf : first_suitable_device l with
  | none => rfl
  | some o =>
    cases o with
    | none => rfl
    | some d =>
      obtain ⟨hmem, hsuit⟩ := first_suitable_device_spec l d hf
      exact absurd hsuit (h d hmem)

/-- C1 counterexample: on the enumeration [devSuitable, devUnsuitable]
(equal scores 8192, the second device lacking anisotropic sampling and
hence unsuitable), `_create_physical_device` selects the UNSUITABLE
second device, because the rating multimap ranks all enumerated devices
without consulting suitability and rbegin prefers the last-inserted
device on a tie.  The claim "a device that is not suitable is never
selected" and "ties are broken by enumeration order" both fail here. -/
theorem create_physical_device_selects_unsuitable :
    create_physical_device [devSuitable, devUnsuitable] = some devUnsuitable ∧
    is_device_suitable devUnsuitable = some false ∧
    is_device_suitable devSuitable = some true ∧
    devUnsuitable ≠ devSuitable := by decide

/-- C1 (amended): when `_create_physical_device` returns normally, at
least one enumerated device is suitable (zero suitable devices is
fatal), the selected device has positive score, every enumerated
device — suitable or not — scores at most the selected one, and the
selected device is the LAST device attaining the maximal score
(suitability is not consulted by the ranking, so an unsuitable device
can be selected). -/
theorem create_physical_device_spec (physical_devices : List PhysicalDevice)
    (d : PhysicalDevice)
    (h : create_physical_device physical_devices = some d) :
    (∃ d0 ∈ physical_devices, is_device_suitable d0 = some true) ∧
    0 < rate_device_suitability d ∧
    (∀ e ∈ physical_devices,
      rate_device_suitability e ≤ rate_device_suitability d) ∧
    ∃ l₁ l₂, physical_devices = l₁ ++ d :: l₂ ∧
      ∀ e ∈ l₂, rate_device_suitability e < rate_device_suitability d := by
  cases hf : first_suitable_device physical_devices with
  | none => simp [create_physical_device, hf] at h
  | some o =>
    cases o with
    | none => simp [create_physical_device, hf] at h
    | some d0 =>
      cases hr : rated_candidates_best physical_devices with
      | none => simp [create_physical_device, hf, hr] at h
      | some p =>
        obtain ⟨s, best⟩ := p
        simp only [create_physical_device, hf, hr] at h
        split at h
        · rename_i hpos
          simp at h
          subst h
          obtain ⟨hmem, hsuit⟩ := first_suitable_device_spec _ d0 hf
          obtain ⟨hs, hall, l₁, l₂, hsplit, hlt⟩ :=
            rated_candidates_best_spec _ s best hr
          subst hs
          exact ⟨⟨d0, hmem, hsuit⟩, hpos, hall, l₁, l₂, hsplit, hlt⟩
        · simp at h

/-- Witness for C1 (the spec's end-to-end scenario): between a suitable
integrated device with maxImageDimension2D = 8192 and a suitable
discrete one with 16384, the discrete device (score 1000 + 16384) is
selected and dominates. -/
theorem create_physical_device_spec_witness :
    (∃ d0 ∈ [devSuitable, devDiscrete], is_device_suitable d0 = some true) ∧
    0 < rate_device_suitability devDiscrete ∧
    (∀ e ∈ [devSuitable, devDiscrete],
      rate_device_suitability e ≤ rate_device_suitability devDiscrete) ∧
    ∃ l₁ l₂, [devSuitable, devDiscrete] = l₁ ++ devDiscrete :: l₂ ∧
      ∀ e ∈ l₂, rate_device_suitability e < rate_device_suitability devDiscrete :=
  create_physical_device_spec [devSuitable, devDiscrete] devDiscrete (by decide)

/-- Loop invariant of `_find_queue_families`: if a graphics index is
recorded it names a family with the graphics flag, if a present index
is recorded it names a family supporting the surface, and while no
present index is recorded the current graphics family (if any) is known
NOT to support the surface.  The last invariant is what makes the
surface query on `graphics_family.value()` (instead of family `i`)
sound: whenever that query succeeds, the graphics family was set to `i`
in the same iteration. -/
lemma find_queue_families_aux_sound (d : PhysicalDevice) :
    ∀ (fams : List QueueFamilyProps) (i : Nat) (ind res : QueueFamilyIndices),
    (∀ g, ind.graphics_family = some g →
      ∃ qf, d.queueFamilies[g]? = some qf ∧ qf.supportsGraphics = true) →
    (∀ p, ind.present_family = some p → d.surfaceSupport.getD p false = true) →
    (ind.present_family = none → ∀ g, ind.graphics_family = some g →
      d.surfaceSupport.getD g false = false) →
    fams = d.queueFamilies.drop i →
    find_queue_families_aux d fams i ind = some res →
    (∀ g, res.graphics_family = some g →
      ∃ qf, d.queueFamilies[g]? = some qf ∧ qf.supportsGraphics = true) ∧
    (∀ p, res.present_family = some p → d.surfaceSupport.getD p false = true) := by
  intro fams
  induction fams with
  | nil =>
    intro i ind res hA hB hC hdrop h
    simp [find_queue_families_aux] at h
    subst h
    exact ⟨hA, hB⟩
  | cons queue_family rest ih =>
    intro i ind res hA hB hC hdrop h
    have hqi : d.queueFamilies[i]? = some queue_family := by
      have hdg := List.getElem?_drop d.queueFamilies i 0
      rw [← hdrop] at hdg
      simp at hdg
      exact hdg.symm
    have hdrop1 : rest = d.queueFamilies.drop (i + 1) := by
      have h1 : d.queueFamilies.drop (i + 1) = (d.queueFamilies.drop i).drop 1 := by
        rw [List.drop_drop]
      rw [h1, ← hdrop]
      simp
    by_cases hcomp : ind.is_complete
    · rw [find_queue_families_aux, if_pos hcomp] at h
      simp at h
      subst h
      exact ⟨hA, hB⟩
    · by_cases hg : queue_family.supportsGraphics
      · -- graphics family updated to i, surface queried for family i
        by_cases hs : d.surfaceSupport[i]?.getD false = true
        · -- present family also set to i
          have h2 : find_queue_families_aux d rest (i + 1)
              ⟨some i, some i⟩ = some res := by
            rw [find_queue_families_aux, if_neg hcomp] at h
            simpa [hg, hs] using h
          refine ih (i + 1) ⟨some i, some i⟩ res ?_ ?_ ?_ hdrop1 h2
          · intro g hg2
            simp at hg2
            subst hg2
            exact ⟨queue_family, hqi, hg⟩
          · intro p hp
            simp at hp
            subst hp
            simpa using hs
          · intro hpres
            simp at hpres
        · -- surface query false: present family untouched
          have h2 : find_queue_families_aux d rest (i + 1)
              ⟨some i, ind.present_family⟩ = some res := by
            rw [find_queue_families_aux, if_neg hcomp] at h
            simpa [hg, hs] using h
          refine ih (i + 1) ⟨some i, ind.present_family⟩ res ?_ ?_ ?_ hdrop1 h2
          · intro g hg2
            simp at hg2
            subst hg2
            exact ⟨queue_family, hqi, hg⟩
          · intro p hp
            exact hB p hp
          · intro hpres g hg2
            simp at hg2
            subst hg2
            simpa using hs
      · -- family i lacks graphics: graphics family unchanged
        cases hgf : ind.graphics_family with
        | none =>
          rw [find_queue_families_aux, if_neg hcomp] at h
          simp [hg, hgf] at h
        | some g =>
          -- ind is incomplete with a graphics index, so no present index,
          -- and by the invariant the queried family g does not support
          -- the surface: the iteration leaves ind unchanged.
          have hpres : ind.present_family = none := by
            unfold QueueFamilyIndices.is_complete at hcomp
            rw [hgf] at hcomp
            simp at hcomp
            cases hp2 : ind.present_family with
            | none => rfl
            | some p => rw [hp2] at hcomp; simp at hcomp
          have hsg : d.surfaceSupport[g]?.getD false = false := by
            simpa using hC hpres g hgf
          have h2 : find_queue_families_aux d rest (i + 1) ind = some res := by
            rw [find_queue_families_aux, if_neg hcomp] at h
            simpa [hg, hgf, hsg] using h
          exact ih (i + 1) ind res hA hB hC hdrop1 h2

/-- C4: when `_find_queue_families` returns normally, a recorded
graphics index names a family whose queue flags include graphics and a
recorded present index names a family supporting presentation to the
bound surface; an incomplete index pair makes `_is_device_suitable`
false; and with no suitable device `_create_physical_device` is
fatal. -/
theorem find_queue_families_sound :
    (∀ (d : PhysicalDevice) (indices : QueueFamilyIndices),
      find_queue_families d = some indices →
      (∀ g, indices.graphics_family = some g →
        ∃ qf, d.queueFamilies[g]? = some qf ∧ qf.supportsGraphics = true) ∧
      (∀ p, indices.present_family = some p →
        d.surfaceSupport.getD p false = true) ∧
      (indices.is_complete = false → is_device_suitable d = some false)) ∧
    (∀ physical_devices : List PhysicalDevice,
      (∀ e ∈ physical_devices, is_device_suitable e ≠ some true) →
      create_physical_device physical_devices = none) := by
  constructor
  · intro d indices h
    obtain ⟨hA, hB⟩ := find_queue_families_aux_sound d d.queueFamilies 0
      ⟨none, none⟩ indices (by simp) (by simp) (by simp) (by simp) h
    refine ⟨hA, hB, ?_⟩
    intro hnc
    unfold is_device_suitable
    rw [h]
    simp [hnc]
  · exact create_physical_device_none_of_no_suitable

/-- Witness for C4: on `devSuitable` the computed indices are
(graphics 0, present 0), family 0 indeed has the graphics flag and
surface support; and enumerating only the unsuitable device is fatal. -/
theorem find_queue_families_sound_witness :
    ((∃ qf, devSuitable.queueFamilies[0]? = some qf ∧
        qf.supportsGraphics = true) ∧
     devSuitable.surfaceSupport.getD 0 false = true) ∧
    create_physical_device [devUnsuitable] = none :=
  ⟨⟨(find_queue_families_sound.1 devSuitable ⟨some 0, some 0⟩ (by decide)).1
      0 rfl,
    (find_queue_families_sound.1 devSuitable ⟨some 0, some 0⟩ (by decide)).2.1
      0 rfl⟩,
   find_queue_families_sound.2 [devUnsuitable] (by decide)⟩

/-- Fence discipline is preserved by trace concatenation. -/
lemma fence_wait_precedes_append {t₁ t₂ : List Ev}
    (h₁ : fence_wait_precedes t₁) (h₂ : fence_wait_precedes t₂) :
    fence_wait_precedes (t₁ ++ t₂) := by
  intro j slot hj
  by_cases hlt : j < t₁.length
  · rw [List.getElem?_append_left hlt] at hj
    obtain ⟨i, hi, hw⟩ := h₁ j slot hj
    exact ⟨i, hi, by rw [List.getElem?_append_left (by omega)]; exact hw⟩
  · have hge : t₁.length ≤ j := by omega
    rw [List.getElem?_append_right hge] at hj
    obtain ⟨i, hi, hw⟩ := h₂ (j - t₁.length) slot hj
    refine ⟨t₁.length + i, by omega, ?_⟩
    rw [List.getElem?_append_right (by omega)]
    have harith : t₁.length + i - t₁.length = i := by omega
    rw [harith]
    exact hw

/-- A trace headed by a fence wait on slot `c` whose remaining events
touch command buffers and uniforms only for slot `c` satisfies the
fence discipline. -/
lemma fence_wait_precedes_cons (c : Nat) (rest : List Ev)
    (hr : ∀ slot, (Ev.resetCmdBuffer slot ∈ rest ∨
      Ev.recordCmdBuffer slot ∈ rest ∨ Ev.updateUniform slot ∈ rest) →
      slot = c) :
    fence_wait_precedes (Ev.waitFence c :: rest) := by
  intro j slot hj
  cases j with
  | zero => simp at hj
  | succ k =>
    have hk : (Ev.waitFence c :: rest)[k + 1]? = rest[k]? := by simp
    rw [hk] at hj
    have hslot : slot = c := by
      apply hr slot
      rcases hj with h | h | h
      · exact Or.inl (List.getElem?_mem h)
      · exact Or.inr (Or.inl (List.getElem?_mem h))
      · exact Or.inr (Or.inr (List.getElem?_mem h))
    subst hslot
    exact ⟨0, Nat.succ_pos k, by simp⟩

/-- Every `_draw_frame` iteration satisfies the fence discipline: the
trace begins with the wait on the current slot's fence, and every
command-buffer reset, re-record and uniform write targets that slot. -/
lemma draw_frame_fence_wait (s : LoopState) (io : DrawIO) :
    fence_wait_precedes (draw_frame s io).2 := by
  by_cases ha : io.acquireResult = VkResult.success
  · by_cases hp : io.presentResult = VkResult.errorOutOfDate ∨
        io.presentResult = VkResult.suboptimal ∨
        s.framebuffer_resized = true
    · have htr : (draw_frame s io).2 =
          Ev.waitFence s.current_frame ::
            [Ev.acquireImage s.current_frame, Ev.resetFence s.current_frame,
             Ev.resetCmdBuffer s.current_frame,
             Ev.recordCmdBuffer s.current_frame,
             Ev.updateUniform s.current_frame, Ev.submit s.current_frame,
             Ev.presentImage, Ev.recreateSwapchain] := by
        simp [draw_frame, ha, hp]
      rw [htr]
      apply fence_wait_precedes_cons
      intro slot h
      simp at h
      exact h
    · have htr : (draw_frame s io).2 =
          Ev.waitFence s.current_frame ::
            [Ev.acquireImage s.current_frame, Ev.resetFence s.current_frame,
             Ev.resetCmdBuffer s.current_frame,
             Ev.recordCmdBuffer s.current_frame,
             Ev.updateUniform s.current_frame, Ev.submit s.current_frame,
             Ev.presentImage] := by
        simp [draw_frame, ha, hp]
      rw [htr]
      apply fence_wait_precedes_cons
      intro slot h
      simp at h
      exact h
  · have htr : (draw_frame s io).2 =
        Ev.waitFence s.current_frame ::
          [Ev.acquireImage s.current_frame, Ev.fatalAbort] := by
      simp [draw_frame, ha]
    rw [htr]
    apply fence_wait_precedes_cons
    intro slot h
    simp at h

/-- C3: in every reachable trace of the render loop — any number of
iterations from any starting state, with any driver results — a frame
slot's command buffer is reset or re-recorded, and its uniform buffer
written, only strictly after a completed host wait on that same slot's
fence (and the same holds of every single `_draw_frame` iteration). -/
theorem render_loop_fence_discipline (s : LoopState) (ios : List DrawIO) :
    fence_wait_precedes (run_render_loop s ios).2 ∧
    ∀ io, fence_wait_precedes (draw_frame s io).2 := by
  constructor
  · induction ios generalizing s with
    | nil =>
      intro j slot hj
      simp [run_render_loop] at hj
    | cons io rest ih =>
      have hiter := draw_frame_fence_wait s io
      cases hd : draw_frame s io with
      | mk os tr =>
        rw [hd] at hiter
        cases os with
        | none =>
          simp only [run_render_loop, hd]
          exact hiter
        | some s2 =>
          simp only [run_render_loop, hd]
          exact fence_wait_precedes_append hiter (ih s2)
  · intro io
    exact draw_frame_fence_wait s io

/-- Witness for C3: the discipline on a concrete two-iteration run
(one clean present, one out-of-date present). -/
theorem render_loop_fence_discipline_witness :
    fence_wait_precedes (run_render_loop ⟨0, false⟩
      [⟨VkResult.success, VkResult.success⟩,
       ⟨VkResult.success, VkResult.errorOutOfDate⟩]).2 :=
  (render_loop_fence_discipline ⟨0, false⟩
    [⟨VkResult.success, VkResult.success⟩,
     ⟨VkResult.success, VkResult.errorOutOfDate⟩]).1

/-- C2 counterexample: when the acquire call reports the chain
out-of-date, `_draw_frame` does NOT recreate the swapchain and restart
the iteration — the result goes through `_vk_expect`, whose
`core_assert` terminates the process. -/
theorem draw_frame_acquire_out_of_date_fatal_cex :
    (draw_frame ⟨0, false⟩
      ⟨VkResult.errorOutOfDate, VkResult.success⟩).1 = none ∧
    Ev.recreateSwapchain ∉
      (draw_frame ⟨0, false⟩ ⟨VkResult.errorOutOfDate, VkResult.success⟩).2 ∧
    Ev.fatalAbort ∈
      (draw_frame ⟨0, false⟩ ⟨VkResult.errorOutOfDate, VkResult.success⟩).2 := by
  decide

/-- C2 (amended): any non-success acquire result, out-of-date included,
is fatal: the iteration stops right after the acquire with an assertion
failure, and no swapchain recreation happens on this path (recreation
is triggered only by the present path). -/
theorem draw_frame_acquire_failure_fatal (s : LoopState) (io : DrawIO)
    (h : io.acquireResult ≠ VkResult.success) :
    (draw_frame s io).1 = none ∧
    (draw_frame s io).2 = [Ev.waitFence s.current_frame,
      Ev.acquireImage s.current_frame, Ev.fatalAbort] ∧
    Ev.recreateSwapchain ∉ (draw_frame s io).2 := by
  refine ⟨?_, ?_, ?_⟩ <;> simp [draw_frame, h]

/-- Witness for C2 (amended): the concrete out-of-date acquire. -/
theorem draw_frame_acquire_failure_fatal_witness :
    (draw_frame ⟨1, false⟩
      ⟨VkResult.errorOutOfDate, VkResult.success⟩).1 = none ∧
    (draw_frame ⟨1, false⟩ ⟨VkResult.errorOutOfDate, VkResult.success⟩).2 =
      [Ev.waitFence 1, Ev.acquireImage 1, Ev.fatalAbort] ∧
    Ev.recreateSwapchain ∉
      (draw_frame ⟨1, false⟩ ⟨VkResult.errorOutOfDate, VkResult.success⟩).2 :=
  draw_frame_acquire_failure_fatal ⟨1, false⟩
    ⟨VkResult.errorOutOfDate, VkResult.success⟩ (by decide)

/-- C5: after a successful acquire, if the present call reports
out-of-date or suboptimal, or the resize flag is set, `_draw_frame`
recreates the swapchain, clears the flag and returns without advancing
`_current_frame`; otherwise `_current_frame` advances to
(current + 1) mod s_max_frames_in_flight with no recreation. -/
theorem draw_frame_present_spec (s : LoopState) (io : DrawIO)
    (ha : io.acquireResult = VkResult.success) :
    ((io.presentResult = VkResult.errorOutOfDate ∨
      io.presentResult = VkResult.suboptimal ∨
      s.framebuffer_resized = true) →
      (draw_frame s io).1 =
        some { current_frame := s.current_frame,
               framebuffer_resized := false } ∧
      Ev.recreateSwapchain ∈ (draw_frame s io).2) ∧
    (¬(io.presentResult = VkResult.errorOutOfDate ∨
       io.presentResult = VkResult.suboptimal ∨
       s.framebuffer_resized = true) →
      (draw_frame s io).1 =
        some { current_frame := (s.current_frame + 1) % s_max_frames_in_flight,
               framebuffer_resized := s.framebuffer_resized } ∧
      Ev.recreateSwapchain ∉ (draw_frame s io).2) := by
  constructor
  · intro hp
    constructor <;> simp [draw_frame, ha, hp]
  · intro hp
    constructor <;> simp [draw_frame, ha, hp]

/-- Witness for C5: a concrete out-of-date present (recreation, flag
cleared, frame index kept) and a concrete clean present (frame index
advanced 0 to 1, no recreation). -/
theorem draw_frame_present_spec_witness :
    ((draw_frame ⟨0, true⟩ ⟨VkResult.success, VkResult.errorOutOfDate⟩).1 =
        some { current_frame := 0, framebuffer_resized := false } ∧
     Ev.recreateSwapchain ∈
       (draw_frame ⟨0, true⟩ ⟨VkResult.success, VkResult.errorOutOfDate⟩).2) ∧
    ((draw_frame ⟨0, false⟩ ⟨VkResult.success, VkResult.success⟩).1 =
        some { current_frame := (0 + 1) % s_max_frames_in_flight,
               framebuffer_resized := false } ∧
     Ev.recreateSwapchain ∉
       (draw_frame ⟨0, false⟩ ⟨VkResult.success, VkResult.success⟩).2) :=
  ⟨(draw_frame_present_spec ⟨0, true⟩
      ⟨VkResult.success, VkResult.errorOutOfDate⟩ rfl).1 (by decide),
   (draw_frame_present_spec ⟨0, false⟩
      ⟨VkResult.success, VkResult.success⟩ rfl).2 (by decide)⟩

/-- The minimization wait emits only poll/wait-events events, and the
polled size sequence has a first nonzero entry: every size before it
had a zero component. -/
lemma minimized_wait_loop_spec :
    ∀ (rest : List (Nat × Nat)) (cur : Nat × Nat) (evs : List REv),
    minimized_wait_loop cur rest = some evs →
    (∀ e ∈ evs, e = REv.pollFramebufferSize ∨ e = REv.waitEventsEv) ∧
    ∃ (k : Nat) (w : Nat) (hh : Nat), (cur :: rest)[k]? = some (w, hh) ∧ w ≠ 0 ∧ hh ≠ 0 ∧
      ∀ (j : Nat), j < k → ∃ w2 h2, (cur :: rest)[j]? = some (w2, h2) ∧
        (w2 = 0 ∨ h2 = 0) := by
  intro rest
  induction rest with
  | nil =>
    intro cur evs h
    rw [minimized_wait_loop] at h
    split at h
    · simp at h
    · rename_i hc
      obtain ⟨h1, h2⟩ := not_or.mp hc
      simp at h
      subst h
      refine ⟨by simp, 0, cur.1, cur.2, by simp, h1, h2, ?_⟩
      intro j hj
      exact absurd hj (Nat.not_lt_zero j)
  | cons sz rest2 ih =>
    intro cur evs h
    rw [minimized_wait_loop] at h
    split at h
    · rename_i hc
      cases hm : minimized_wait_loop sz rest2 with
      | none => rw [hm] at h; simp at h
      | some evs2 =>
        rw [hm] at h
        simp at h
        subst h
        obtain ⟨hev, k, w, hh, hk, hw, hh2, hbefore⟩ := ih sz evs2 hm
        refine ⟨?_, k + 1, w, hh, by simpa using hk, hw, hh2, ?_⟩
        · intro e he
          rcases List.mem_cons.mp he with rfl | he2
          · exact Or.inl rfl
          rcases List.mem_cons.mp he2 with rfl | he3
          · exact Or.inr rfl
          · exact hev e he3
        · intro j hj
          cases j with
          | zero => exact ⟨cur.1, cur.2, by simp, hc⟩
          | succ j2 =>
            obtain ⟨w2, h2, hg, hz⟩ := hbefore j2 (by omega)
            exact ⟨w2, h2, by simpa using hg, hz⟩
    · rename_i hc
      obtain ⟨h1, h2⟩ := not_or.mp hc
      simp at h
      subst h
      refine ⟨by simp, 0, cur.1, cur.2, by simp, h1, h2, ?_⟩
      intro j hj
      exact absurd hj (Nat.not_lt_zero j)

/-- C9: when `_recreate_swap_chain` returns, the polled framebuffer
sizes have a first nonzero entry (the call blocks, polling and waiting
on window events, until the size is nonzero), and the trace is exactly
that waiting, then the device-idle wait, then destruction of the
framebuffers, image views and swapchain, then recreation of the
swapchain, image views and framebuffers in that order; the render pass,
pipeline, pipeline layout and descriptor-set layout are untouched. -/
theorem recreate_swap_chain_spec (polls : List (Nat × Nat)) (tr : List REv)
    (h : recreate_swap_chain_trace polls = some tr) :
    (∃ (k : Nat) (w : Nat) (hh : Nat), polls[k]? = some (w, hh) ∧ w ≠ 0 ∧ hh ≠ 0 ∧
      ∀ (j : Nat), j < k → ∃ w2 h2, polls[j]? = some (w2, h2) ∧
        (w2 = 0 ∨ h2 = 0)) ∧
    (∃ waits, tr = waits ++
        [REv.deviceWaitIdle, REv.destroyFramebuffers, REv.destroyImageViews,
         REv.destroySwapchain, REv.createSwapchainEv, REv.createImageViewsEv,
         REv.createFramebuffersEv] ∧
      ∀ e ∈ waits, e = REv.pollFramebufferSize ∨ e = REv.waitEventsEv) ∧
    REv.destroyRenderPass ∉ tr ∧ REv.createRenderPassEv ∉ tr ∧
    REv.destroyPipeline ∉ tr ∧ REv.createPipelineEv ∉ tr ∧
    REv.destroyPipelineLayout ∉ tr ∧ REv.createPipelineLayoutEv ∉ tr ∧
    REv.destroyDescriptorSetLayout ∉ tr ∧
    REv.createDescriptorSetLayoutEv ∉ tr := by
  cases polls with
  | nil => simp [recreate_swap_chain_trace] at h
  | cons sz rest =>
    cases hm : minimized_wait_loop sz rest with
    | none => simp [recreate_swap_chain_trace, hm] at h
    | some evs =>
      have h2 : recreate_swap_chain_trace (sz :: rest) =
          some ((REv.pollFramebufferSize :: evs) ++
            [REv.deviceWaitIdle, REv.destroyFramebuffers,
             REv.destroyImageViews, REv.destroySwapchain,
             REv.createSwapchainEv, REv.createImageViewsEv,
             REv.createFramebuffersEv]) := by
        simp [recreate_swap_chain_trace, hm, cleanup_swap_chain_trace]
      rw [h2] at h
      injection h with h3
      have htr : tr = (REv.pollFramebufferSize :: evs) ++
          [REv.deviceWaitIdle, REv.destroyFramebuffers,
           REv.destroyImageViews, REv.destroySwapchain,
           REv.createSwapchainEv, REv.createImageViewsEv,
           REv.createFramebuffersEv] := h3.symm
      obtain ⟨hev, k, w, hh, hk, hw, hh2, hbefore⟩ :=
        minimized_wait_loop_spec rest sz evs hm
      have hwaits : ∀ e ∈ REv.pollFramebufferSize :: evs,
          e = REv.pollFramebufferSize ∨ e = REv.waitEventsEv := by
        intro e he
        rcases List.mem_cons.mp he with rfl | he2
        · exact Or.inl rfl
        · exact hev e he2
      have hclass : ∀ e ∈ tr, e = REv.pollFramebufferSize ∨
          e = REv.waitEventsEv ∨ e = REv.deviceWaitIdle ∨
          e = REv.destroyFramebuffers ∨ e = REv.destroyImageViews ∨
          e = REv.destroySwapchain ∨ e = REv.createSwapchainEv ∨
          e = REv.createImageViewsEv ∨ e = REv.createFramebuffersEv := by
        intro e he
        rw [htr] at he
        rcases List.mem_append.mp he with he1 | he1
        · rcases hwaits e he1 with h4 | h4
          · exact Or.inl h4
          · exact Or.inr (Or.inl h4)
        · simp at he1
          rcases he1 with h4 | h4 | h4 | h4 | h4 | h4 | h4 <;> subst h4 <;> simp
      refine ⟨⟨k, w, hh, hk, hw, hh2, hbefore⟩,
        ⟨REv.pollFramebufferSize :: evs, htr, hwaits⟩, ?_, ?_, ?_, ?_, ?_, ?_,
        ?_, ?_⟩ <;>
        · intro hmem
          rcases hclass _ hmem with h4|h4|h4|h4|h4|h4|h4|h4|h4 <;> simp at h4

/-- Witness for C9: a concrete recreation during which the window was
minimized for one poll (size 0x0) before reporting 800x600. -/
theorem recreate_swap_chain_spec_witness :
    (∃ (k : Nat) (w : Nat) (hh : Nat), ([(0, 0), (800, 600)] : List (Nat × Nat))[k]? = some (w, hh) ∧ w ≠ 0 ∧ hh ≠ 0 ∧
      ∀ (j : Nat), j < k → ∃ w2 h2, ([(0, 0), (800, 600)] : List (Nat × Nat))[j]? = some (w2, h2) ∧
        (w2 = 0 ∨ h2 = 0)) ∧
    (∃ waits, [REv.pollFramebufferSize, REv.pollFramebufferSize,
        REv.waitEventsEv, REv.deviceWaitIdle, REv.destroyFramebuffers,
        REv.destroyImageViews, REv.destroySwapchain, REv.createSwapchainEv,
        REv.createImageViewsEv, REv.createFramebuffersEv] = waits ++
        [REv.deviceWaitIdle, REv.destroyFramebuffers, REv.destroyImageViews,
         REv.destroySwapchain, REv.createSwapchainEv, REv.createImageViewsEv,
         REv.createFramebuffersEv] ∧
      ∀ e ∈ waits, e = REv.pollFramebufferSize ∨ e = REv.waitEventsEv) ∧
    REv.destroyRenderPass ∉ ([REv.pollFramebufferSize,
      REv.pollFramebufferSize, REv.waitEventsEv, REv.deviceWaitIdle,
      REv.destroyFramebuffers, REv.destroyImageViews, REv.destroySwapchain,
      REv.createSwapchainEv, REv.createImageViewsEv,
      REv.createFramebuffersEv] : List REv) ∧
    REv.createRenderPassEv ∉ ([REv.pollFramebufferSize,
      REv.pollFramebufferSize, REv.waitEventsEv, REv.deviceWaitIdle,
      REv.destroyFramebuffers, REv.destroyImageViews, REv.destroySwapchain,
      REv.createSwapchainEv, REv.createImageViewsEv,
      REv.createFramebuffersEv] : List REv) ∧
    REv.destroyPipeline ∉ ([REv.pollFramebufferSize,
      REv.pollFramebufferSize, REv.waitEventsEv, REv.deviceWaitIdle,
      REv.destroyFramebuffers, REv.destroyImageViews, REv.destroySwapchain,
      REv.createSwapchainEv, REv.createImageViewsEv,
      REv.createFramebuffersEv] : List REv) ∧
    REv.createPipelineEv ∉ ([REv.pollFramebufferSize,
      REv.pollFramebufferSize, REv.waitEventsEv, REv.deviceWaitIdle,
      REv.destroyFramebuffers, REv.destroyImageViews, REv.destroySwapchain,
      REv.createSwapchainEv, REv.createImageViewsEv,
      REv.createFramebuffersEv] : List REv) ∧
    REv.destroyPipelineLayout ∉ ([REv.pollFramebufferSize,
      REv.pollFramebufferSize, REv.waitEventsEv, REv.deviceWaitIdle,
      REv.destroyFramebuffers, REv.destroyImageViews, REv.destroySwapchain,
      REv.createSwapchainEv, REv.createImageViewsEv,
      REv.createFramebuffersEv] : List REv) ∧
    REv.createPipelineLayoutEv ∉ ([REv.pollFramebufferSize,
      REv.pollFramebufferSize, REv.waitEventsEv, REv.deviceWaitIdle,
      REv.destroyFramebuffers, REv.destroyImageViews, REv.destroySwapchain,
      REv.createSwapchainEv, REv.createImageViewsEv,
      REv.createFramebuffersEv] : List REv) ∧
    REv.destroyDescriptorSetLayout ∉ ([REv.pollFramebufferSize,
      REv.pollFramebufferSize, REv.waitEventsEv, REv.deviceWaitIdle,
      REv.destroyFramebuffers, REv.destroyImageViews, REv.destroySwapchain,
      REv.createSwapchainEv, REv.createImageViewsEv,
      REv.createFramebuffersEv] : List REv) ∧
    REv.createDescriptorSetLayoutEv ∉ ([REv.pollFramebufferSize,
      REv.pollFramebufferSize, REv.waitEventsEv, REv.deviceWaitIdle,
      REv.destroyFramebuffers, REv.destroyImageViews, REv.destroySwapchain,
      REv.createSwapchainEv, REv.createImageViewsEv,
      REv.createFramebuffersEv] : List REv) :=
  recreate_swap_chain_spec [(0, 0), (800, 600)]
    [REv.pollFramebufferSize, REv.pollFramebufferSize, REv.waitEventsEv,
     REv.deviceWaitIdle, REv.destroyFramebuffers, REv.destroyImageViews,
     REv.destroySwapchain, REv.createSwapchainEv, REv.createImageViewsEv,
     REv.createFramebuffersEv] (by decide)

/-- C10: AssetDatabase::exists can never return false: it resolves the
path through AssetDatabase::resolve, whose `core_assert` is fatal when
the file does not exist, so whenever `exists` returns normally the
returned value is true. -/
theorem asset_exists_never_false (fs_exists : String → Bool)
    (assets_root relative_path : String) (b : Bool)
    (h : AssetDatabase.exists fs_exists assets_root relative_path = some b) :
    b = true := by
  unfold AssetDatabase.exists AssetDatabase.resolve at h
  by_cases hf : fs_exists (assets_root ++ "/" ++ relative_path) = true
  · simp [hf] at h
    exact h
  · simp [hf] at h

/-- Witness for C10: a filesystem on which everything exists resolves
"assets/default.png" and `exists` returns true. -/
theorem asset_exists_never_false_witness :
    AssetDatabase.exists (fun _ => true) "assets" "default.png" = some true ∧
    true = true :=
  ⟨by decide,
   asset_exists_never_false (fun _ => true) "assets" "default.png" true
     (by decide)⟩

end VEngine
